import Mathlib

/-!
# Verification of the two-stage ML prediction pipeline (`app.py`)

This file shallowly embeds the prediction core of the backend — the function
`get_ml_predictions` (app.py, lines 47–78) together with the module-level model
handles it reads (lines 15–24) — and proves the specification claims about it.

Modelling conventions:
* Python strings are Lean `String`s; charwise operations (`replace`, `lower`,
  `strip`) act on `String.data`.
* The opaque pre-fitted artifacts (classifier, vectorizer, cluster models, risk
  maps) and the file system are an explicit environment `Env`; fallible Python
  calls (which may raise) are functions into `Except String _`, an `Except.error`
  standing for a raised exception with its message.
* The observable storage/model effects (calls to `joblib.load`, classifier and
  vectorizer invocations) are threaded through an explicit effect log `RunState`,
  so that claims about re-reading artifacts ("load counts") are statable.
-/

/-- Feature vectors produced by `tfidf.transform`; opaque numeric data. -/
abbrev FeatureVec := List Int

/-- The environment `get_ml_predictions` runs against.

* `category_model` / `tfidf` are the module-level handles of app.py lines 15–22:
  `none` models the load-failure branch that sets them to Python `None`.
* `pathExists` is `os.path.exists`.
* `loadCluster` / `loadRiskMap` are `joblib.load` restricted to the two artifact
  families the function reads: a loaded cluster model is its `predict ∘ int ∘ [0]`
  behaviour `FeatureVec → Except String Int`, a loaded risk map is its `dict.get`
  behaviour `Int → Option String`; an `Except.error` is a raised load error
  (missing or corrupt artifact). -/
structure Env where
  category_model : Option (String → Except String String)
  tfidf : Option (String → Except String FeatureVec)
  pathExists : String → Bool
  loadCluster : String → Except String (FeatureVec → Except String Int)
  loadRiskMap : String → Except String (Int → Option String)

/-- Effect log of a process: the paths passed to `joblib.load` (in order) and the
number of classifier / vectorizer invocations. -/
structure RunState where
  loads : List String
  classifierCalls : Nat
  transformCalls : Nat
deriving DecidableEq

/-- The empty effect log. -/
def initState : RunState := ⟨[], 0, 0⟩

/-- The dictionary returned by `get_ml_predictions`: `category` and `risk` are
always present; `risk_level` models the extra key that only the full
clustering-success return (app.py line 74) carries. -/
structure PredResult where
  category : String
  risk : String
  risk_level : Option String
deriving DecidableEq

/-- `{"category": "Unknown", "risk": "Unknown"}` (app.py lines 50 and 78). -/
def unknownPred : PredResult := ⟨"Unknown", "Unknown", none⟩

/-- `{"category": "Model not loaded", "risk": "Model not loaded"}` (line 54). -/
def modelNotLoadedPred : PredResult := ⟨"Model not loaded", "Model not loaded", none⟩

/-- Python `s.replace(" ", "_")` (charwise). -/
def pyReplaceSpace (s : String) : String :=
  ⟨s.data.map (fun c => if c = ' ' then '_' else c)⟩

/-- Python `s.lower()` (charwise ASCII case mapping). -/
def pyLower (s : String) : String :=
  ⟨s.data.map Char.toLower⟩

/-- Python `s.strip()`: drop whitespace from both ends (ASCII whitespace model). -/
def pyStrip (s : String) : String :=
  ⟨((s.data.dropWhile Char.isWhitespace).reverse.dropWhile Char.isWhitespace).reverse⟩

/-- app.py line 58: `safe_cat = category.replace(" ", "_").lower()`. -/
def safe_cat (category : String) : String :=
  pyLower (pyReplaceSpace category)

/-- app.py line 24: `RISK_MODEL_DIR = "risk_models"`. -/
def RISK_MODEL_DIR : String := "risk_models"

/-- app.py line 61: `os.path.join(RISK_MODEL_DIR, f"{safe_cat}_kmeans.pkl")`. -/
def kmeans_path (sc : String) : String :=
  RISK_MODEL_DIR ++ "/" ++ sc ++ "_kmeans.pkl"

/-- app.py line 62: `os.path.join(RISK_MODEL_DIR, f"{safe_cat}_risk_map.pkl")`. -/
def map_path (sc : String) : String :=
  RISK_MODEL_DIR ++ "/" ++ sc ++ "_risk_map.pkl"

/-- The body of the `try` block of `get_ml_predictions` (app.py lines 53–74).
An `Except.error` result is an exception escaping the block, to be caught by the
surrounding handler. Effects on storage and models are logged in the state. -/
def predictionBody (env : Env) (text : String) (s : RunState) :
    Except String PredResult × RunState :=
  match env.category_model, env.tfidf with
  | some cm, some tf =>
    -- line 57: category = category_model.predict([text])[0]
    let s1 : RunState := { s with classifierCalls := s.classifierCalls + 1 }
    match cm text with
    | .error e => (.error e, s1)
    | .ok category =>
      let kpath := kmeans_path (safe_cat category)
      let mpath := map_path (safe_cat category)
      -- line 64: if not os.path.exists(kmeans_path): return {category, "Unknown"}
      if env.pathExists kpath = false then
        (.ok ⟨category, "Unknown", none⟩, s1)
      else
        -- line 67: risk_model = joblib.load(kmeans_path)
        let s2 : RunState := { s1 with loads := s1.loads ++ [kpath] }
        match env.loadCluster kpath with
        | .error e => (.error e, s2)
        | .ok risk_model =>
          -- line 68: risk_mapping = joblib.load(map_path)
          let s3 : RunState := { s2 with loads := s2.loads ++ [mpath] }
          match env.loadRiskMap mpath with
          | .error e => (.error e, s3)
          | .ok risk_mapping =>
            -- line 70: text_vec = tfidf.transform([text])
            let s4 : RunState := { s3 with transformCalls := s3.transformCalls + 1 }
            match tf text with
            | .error e => (.error e, s4)
            | .ok text_vec =>
              -- line 71: cluster = int(risk_model.predict(text_vec)[0])
              match risk_model text_vec with
              | .error e => (.error e, s4)
              | .ok cluster =>
                -- lines 72–74
                let risk_label := (risk_mapping cluster).getD "Unknown"
                (.ok ⟨category, risk_label, some risk_label⟩, s4)
  -- line 53: if category_model is None or tfidf is None
  | _, _ => (.ok modelNotLoadedPred, s)

/-- app.py lines 47–78: `get_ml_predictions(text)`.  `text : Option String`
models the Python argument, which may be `None`.  Line 49 short-circuits blank
input; the `except` handler (lines 76–78) converts any exception escaping the
`try` block into the sentinel result. -/
def get_ml_predictions (env : Env) (text : Option String) (s : RunState) :
    PredResult × RunState :=
  match text with
  | none => (unknownPred, s)
  | some t =>
    -- line 49: if not text or not text.strip()
    if t = "" ∨ pyStrip t = "" then (unknownPred, s)
    else
      match predictionBody env t s with
      | (.ok r, s') => (r, s')
      | (.error _, s') => (unknownPred, s')

/-- The risk map `{0: "Low", 1: "Moderate", 2: "High"}` of the spec's Scenario C. -/
def riskMap3 : Int → Option String :=
  fun n => if n = 0 then some "Low" else if n = 1 then some "Moderate"
    else if n = 2 then some "High" else none

/-- A concrete environment realizing the registry-hit path: the classifier
returns "Noise Complaint", both artifacts exist and load, the cluster model
returns cluster id 2, the risk map is `riskMap3` (the spec's Scenario C). -/
def envHit : Env where
  category_model := some fun _ => .ok "Noise Complaint"
  tfidf := some fun _ => .ok [1]
  pathExists := fun _ => true
  loadCluster := fun _ => .ok fun _ => .ok 2
  loadRiskMap := fun _ => .ok riskMap3

/-- A concrete environment where the kmeans artifact exists and loads but the
risk-map artifact is missing, so `joblib.load(map_path)` raises. -/
def envMapMissing : Env where
  category_model := some fun _ => .ok "Noise Complaint"
  tfidf := some fun _ => .ok [1]
  pathExists := fun _ => true
  loadCluster := fun _ => .ok fun _ => .ok 0
  loadRiskMap := fun _ => .error "FileNotFoundError"

/-- A concrete environment where no risk artifacts exist for any category
(the existence check at app.py line 64 fails) — the spec's Scenario B. -/
def envNoArtifacts : Env where
  category_model := some fun _ => .ok "Noise Complaint"
  tfidf := some fun _ => .ok [1]
  pathExists := fun _ => false
  loadCluster := fun _ => .error "FileNotFoundError"
  loadRiskMap := fun _ => .error "FileNotFoundError"

/-- A concrete environment where the models failed to load at startup
(app.py lines 19–22 set both handles to `None`) — the spec's Scenario D. -/
def envNoModel : Env where
  category_model := none
  tfidf := none
  pathExists := fun _ => false
  loadCluster := fun _ => .error "FileNotFoundError"
  loadRiskMap := fun _ => .error "FileNotFoundError"

/-- Category-key derivation written as the spec's words say it (§4.2 / §3:
lowercase first, then replace spaces with underscores), to be compared with the
source's `safe_cat`, which replaces first and lowercases second. -/
def spec_category_key (category : String) : String :=
  pyReplaceSpace (pyLower category)

/-- The full clustering-success path of `get_ml_predictions`: non-blank input,
both model handles loaded, and the classifier call, the artifact existence
check, both artifact loads, the vectorization and the cluster prediction all
succeed — i.e. control reaches the return at app.py line 74. -/
def fullSuccessPath (env : Env) (text : Option String) : Bool :=
  match text with
  | none => false
  | some t =>
    if t = "" ∨ pyStrip t = "" then false
    else
      match env.category_model, env.tfidf with
      | some cm, some tf =>
        match cm t with
        | .error _ => false
        | .ok category =>
          if env.pathExists (kmeans_path (safe_cat category)) = false then false
          else
            match env.loadCluster (kmeans_path (safe_cat category)) with
            | .error _ => false
            | .ok rm =>
              match env.loadRiskMap (map_path (safe_cat category)) with
              | .error _ => false
              | .ok _ =>
                match tf t with
                | .error _ => false
                | .ok v =>
                  match rm v with
                  | .error _ => false
                  | .ok _ => true
      | _, _ => false

/-! ## Helper lemmas -/

/-- The `try`-block body factors: its result and its effect delta depend only on
the environment and the text, and the delta is appended to the incoming state. -/
theorem predictionBody_run (env : Env) (t : String) (s : RunState) :
    predictionBody env t s =
      ((predictionBody env t initState).1,
        ⟨s.loads ++ (predictionBody env t initState).2.loads,
         s.classifierCalls + (predictionBody env t initState).2.classifierCalls,
         s.transformCalls + (predictionBody env t initState).2.transformCalls⟩) := by
  rcases env with ⟨cmo, tfo, pe, lc, lm⟩
  unfold predictionBody
  cases cmo with
  | none => cases tfo <;> simp [initState]
  | some cm =>
    cases tfo with
    | none => simp [initState]
    | some tf =>
      cases hcm : cm t with
      | error e => simp [hcm, initState]
      | ok category =>
        cases hpe : pe (kmeans_path (safe_cat category)) with
        | false => simp [hcm, hpe, initState]
        | true =>
          cases hlc : lc (kmeans_path (safe_cat category)) with
          | error e => simp [hcm, hpe, hlc, initState]
          | ok rm =>
            cases hlm : lm (map_path (safe_cat category)) with
            | error e => simp [hcm, hpe, hlc, hlm, initState]
            | ok mp =>
              cases htf : tf t with
              | error e => simp [hcm, hpe, hlc, hlm, htf, initState]
              | ok v =>
                cases hrm : rm v with
                | error e => simp [hcm, hpe, hlc, hlm, htf, hrm, initState]
                | ok cid => simp [hcm, hpe, hlc, hlm, htf, hrm, initState]

/-- The whole operation factors the same way: the returned result depends only
on the environment and the text, and the effect delta is appended. -/
theorem get_ml_predictions_run (env : Env) (text : Option String) (s : RunState) :
    get_ml_predictions env text s =
      ((get_ml_predictions env text initState).1,
        ⟨s.loads ++ (get_ml_predictions env text initState).2.loads,
         s.classifierCalls + (get_ml_predictions env text initState).2.classifierCalls,
         s.transformCalls + (get_ml_predictions env text initState).2.transformCalls⟩) := by
  unfold get_ml_predictions
  cases text with
  | none => simp [initState]
  | some t =>
    dsimp only
    by_cases hb : t = "" ∨ pyStrip t = ""
    · simp [hb, initState]
    · rw [if_neg hb, if_neg hb, predictionBody_run env t s]
      rcases hpb : predictionBody env t initState with ⟨r, S⟩
      cases r <;> simp [initState]

/-- `Char.toLower` never turns a non-space character into a space. -/
theorem toLower_ne_space {c : Char} (h : c ≠ ' ') : Char.toLower c ≠ ' ' := by
  unfold Char.toLower
  show (if c.toNat ≥ 65 ∧ c.toNat ≤ 90 then Char.ofNat (c.toNat + 32) else c) ≠ ' '
  split
  · rename_i hr
    intro heq
    have hv : (c.toNat + 32).isValidChar := Or.inl (by omega)
    have h1 : (Char.ofNat (c.toNat + 32)).toNat = c.toNat + 32 := by
      unfold Char.ofNat
      rw [dif_pos hv]
      rfl
    have h2 := congrArg Char.toNat heq
    rw [h1] at h2
    have h3 : Char.toNat ' ' = 32 := rfl
    omega
  · exact h

/-- Per-character commutation of space-to-underscore replacement with ASCII
lowercasing. -/
theorem toLower_if_space_comm (c : Char) :
    Char.toLower (if c = ' ' then '_' else c) =
      if Char.toLower c = ' ' then '_' else Char.toLower c := by
  by_cases hc : c = ' '
  · subst hc; decide
  · rw [if_neg hc, if_neg (toLower_ne_space hc)]

/-! ## Claim theorems -/

/-- C7: the category key is derived by lowercasing and replacing spaces with
underscores, and the source's order (replace spaces first, then lowercase,
app.py line 58) agrees with the spec's order (lowercase first, then replace
spaces) on every string. -/
theorem safe_cat_eq_spec_category_key (category : String) :
    safe_cat category = spec_category_key category := by
  unfold safe_cat spec_category_key pyLower pyReplaceSpace
  show String.mk ((category.data.map (fun c => if c = ' ' then '_' else c)).map Char.toLower) =
    String.mk ((category.data.map Char.toLower).map (fun c => if c = ' ' then '_' else c))
  rw [List.map_map, List.map_map]
  have hfun : (Char.toLower ∘ fun c => if c = ' ' then '_' else c) =
      ((fun c => if c = ' ' then '_' else c) ∘ Char.toLower) :=
    funext fun c => toLower_if_space_comm c
  rw [hfun]

/-- C8: `get_ml_predictions` is deterministic — a second call with the same
text, against the same environment (model handles and artifact store), returns
the same result as the first, even though the first call mutated the effect
log. -/
theorem get_ml_predictions_deterministic (env : Env) (text : Option String) (s : RunState) :
    (get_ml_predictions env text ((get_ml_predictions env text s).2)).1 =
      (get_ml_predictions env text s).1 := by
  rw [get_ml_predictions_run env text ((get_ml_predictions env text s).2),
    get_ml_predictions_run env text s]

/-- C1: `get_ml_predictions` always returns a well-formed result value (it is a
total function into `PredResult`, whose `category` and `risk` fields are
strings), and every exception raised inside the `try` body is caught at the
boundary and converted to the sentinel result: the returned value is either the
sentinel `unknownPred` or the successful value of the body — an internal
`Except.error` never propagates to the caller. -/
theorem get_ml_predictions_never_raises (env : Env) (text : Option String) (s : RunState) :
    (get_ml_predictions env text s).1 = unknownPred ∨
      ∃ t, text = some t ∧
        (predictionBody env t s).1 = Except.ok (get_ml_predictions env text s).1 := by
  unfold get_ml_predictions
  cases text with
  | none => exact Or.inl rfl
  | some t =>
    dsimp only
    by_cases hb : t = "" ∨ pyStrip t = ""
    · rw [if_pos hb]; exact Or.inl rfl
    · rw [if_neg hb]
      rcases hpb : predictionBody env t s with ⟨r, S⟩
      cases r with
      | error e => simp [hpb]
      | ok v => exact Or.inr ⟨t, rfl, by simp [hpb]⟩

/-- C4: for absent (`None`), empty, or whitespace-only text the operation
returns `{category: "Unknown", risk: "Unknown"}` immediately and performs no
model or storage effect (the effect log is returned unchanged), whatever the
state of the model handles — the blank-input check precedes the
model-availability check. -/
theorem blank_input_returns_unknown (env : Env) (s : RunState) (text : Option String)
    (h : text = none ∨ ∃ t, text = some t ∧ pyStrip t = "") :
    get_ml_predictions env text s = (unknownPred, s) := by
  rcases h with h | ⟨t, ht, hstrip⟩
  · subst h; rfl
  · subst ht
    unfold get_ml_predictions
    dsimp only
    rw [if_pos (Or.inr hstrip)]

/-- Witness for C4, with models loaded in the environment. -/
theorem blank_input_returns_unknown_witness :
    pyStrip " \t " = "" ∧
      get_ml_predictions envHit (some " \t ") initState = (unknownPred, initState) :=
  ⟨by decide, blank_input_returns_unknown envHit initState (some " \t ")
    (Or.inr ⟨" \t ", rfl, by decide⟩)⟩

/-- C5: if the category classifier or the vectorizer handle is `None` (startup
load failure), every non-blank text yields the sentinel
`{category: "Model not loaded", risk: "Model not loaded"}`. -/
theorem model_unavailable_sentinel (env : Env) (s : RunState) (t : String)
    (hm : env.category_model = none ∨ env.tfidf = none)
    (hb : ¬(t = "" ∨ pyStrip t = "")) :
    get_ml_predictions env (some t) s = (modelNotLoadedPred, s) := by
  rcases env with ⟨cmo, tfo, pe, lc, lm⟩
  unfold get_ml_predictions predictionBody
  dsimp only at hm ⊢
  rcases hm with hm | hm
  · subst hm; cases tfo <;> simp [hb]
  · subst hm; cases cmo <;> simp [hb]

/-- Witness for C5: the spec's Scenario D environment. -/
theorem model_unavailable_sentinel_witness :
    get_ml_predictions envNoModel (some "loud noise") initState =
      (modelNotLoadedPred, initState) :=
  model_unavailable_sentinel envNoModel initState "loud noise" (Or.inl rfl) (by decide)

/-- C6: on the registry-hit path (models loaded, non-blank text, kmeans artifact
present, both artifacts load, vectorization and cluster prediction succeed) the
returned risk is the risk map's entry for the produced cluster id, with an
absent id defaulting to "Unknown" rather than failing. -/
theorem registry_hit_risk_lookup (env : Env) (s : RunState) (t c : String)
    (cm : String → Except String String) (tf : String → Except String FeatureVec)
    (rm : FeatureVec → Except String Int) (mp : Int → Option String)
    (v : FeatureVec) (cid : Int)
    (hb : ¬(t = "" ∨ pyStrip t = ""))
    (hcm : env.category_model = some cm) (htf : env.tfidf = some tf)
    (hc : cm t = Except.ok c)
    (hpe : env.pathExists (kmeans_path (safe_cat c)) = true)
    (hlc : env.loadCluster (kmeans_path (safe_cat c)) = Except.ok rm)
    (hlm : env.loadRiskMap (map_path (safe_cat c)) = Except.ok mp)
    (hv : tf t = Except.ok v)
    (hcid : rm v = Except.ok cid) :
    (get_ml_predictions env (some t) s).1 =
      ⟨c, (mp cid).getD "Unknown", some ((mp cid).getD "Unknown")⟩ := by
  rcases env with ⟨cmo, tfo, pe, lc, lm⟩
  dsimp only at hcm htf hpe hlc hlm
  subst hcm; subst htf
  unfold get_ml_predictions predictionBody
  simp [hb, hc, hpe, hlc, hlm, hv, hcid]

/-- Witness for C6: the spec's Scenario C — cluster id 2 under the map
`{0: "Low", 1: "Moderate", 2: "High"}` gives risk "High". -/
theorem registry_hit_risk_lookup_witness :
    (get_ml_predictions envHit (some "loud noise") initState).1 =
      ⟨"Noise Complaint", "High", some "High"⟩ :=
  (registry_hit_risk_lookup envHit initState "loud noise" "Noise Complaint"
    (fun _ => .ok "Noise Complaint") (fun _ => .ok [1]) (fun _ => .ok 2) riskMap3
    [1] 2 (by decide) rfl rfl rfl rfl rfl rfl rfl rfl).trans (by decide)

/-- C2 counterexample: with the classifier succeeding ("Noise Complaint"), the
kmeans artifact present and loading, but the risk-map artifact failing to load,
the result is NOT `{category: "Noise Complaint", risk: "Unknown"}` — the
category label is not preserved (the catch-all yields `{"Unknown", "Unknown"}`). -/
theorem risk_artifact_failure_counterexample :
    ¬ ((get_ml_predictions envMapMissing (some "loud noise") initState).1.category =
          "Noise Complaint" ∧
       (get_ml_predictions envMapMissing (some "loud noise") initState).1.risk =
          "Unknown") := by
  decide

/-- C2 (amended): with the classifier succeeding with category `c`, degradation
is silent (no exception surfaces) in all three failure cases, but the category
label is preserved only when the kmeans artifact's existence check fails; when
the kmeans artifact exists and either artifact load raises (the map artifact's
existence is never checked), the caught exception yields
`{category: "Unknown", risk: "Unknown"}`. -/
theorem risk_artifact_failure_paths (env : Env) (s : RunState) (t c : String)
    (cm : String → Except String String) (tf : String → Except String FeatureVec)
    (hb : ¬(t = "" ∨ pyStrip t = ""))
    (hcm : env.category_model = some cm) (htf : env.tfidf = some tf)
    (hc : cm t = Except.ok c) :
    (env.pathExists (kmeans_path (safe_cat c)) = false →
        (get_ml_predictions env (some t) s).1 = ⟨c, "Unknown", none⟩) ∧
    (∀ e, env.pathExists (kmeans_path (safe_cat c)) = true →
        env.loadCluster (kmeans_path (safe_cat c)) = Except.error e →
        (get_ml_predictions env (some t) s).1 = unknownPred) ∧
    (∀ rm e, env.pathExists (kmeans_path (safe_cat c)) = true →
        env.loadCluster (kmeans_path (safe_cat c)) = Except.ok rm →
        env.loadRiskMap (map_path (safe_cat c)) = Except.error e →
        (get_ml_predictions env (some t) s).1 = unknownPred) := by
  rcases env with ⟨cmo, tfo, pe, lc, lm⟩
  dsimp only at hcm htf ⊢
  subst hcm; subst htf
  refine ⟨?_, ?_, ?_⟩
  · intro hpe
    unfold get_ml_predictions predictionBody
    simp [hb, hc, hpe]
  · intro e hpe hlc
    unfold get_ml_predictions predictionBody
    simp [hb, hc, hpe, hlc]
  · intro rm e hpe hlc hlm
    unfold get_ml_predictions predictionBody
    simp [hb, hc, hpe, hlc, hlm]

/-- Witness for the amended C2: the existence-check case preserves the category,
the map-load-failure case collapses to the sentinel. -/
theorem risk_artifact_failure_paths_witness :
    (get_ml_predictions envNoArtifacts (some "loud noise") initState).1 =
        ⟨"Noise Complaint", "Unknown", none⟩ ∧
      (get_ml_predictions envMapMissing (some "loud noise") initState).1 = unknownPred :=
  ⟨(risk_artifact_failure_paths envNoArtifacts initState "loud noise" "Noise Complaint"
      (fun _ => .ok "Noise Complaint") (fun _ => .ok [1]) (by decide) rfl rfl rfl).1 rfl,
   (risk_artifact_failure_paths envMapMissing initState "loud noise" "Noise Complaint"
      (fun _ => .ok "Noise Complaint") (fun _ => .ok [1]) (by decide) rfl rfl rfl).2.2
     (fun _ => .ok 0) "FileNotFoundError" rfl rfl rfl⟩

/-- C3 counterexample: on a concrete registry-hit environment, a second call for
the same category does re-read from storage — the load count after the second
call (4) differs from the load count after the first (2). -/
theorem registry_no_cache_counterexample :
    ¬ ((get_ml_predictions envHit (some "loud noise")
          ((get_ml_predictions envHit (some "loud noise") initState).2)).2.loads.length =
        (get_ml_predictions envHit (some "loud noise") initState).2.loads.length) := by
  decide

/-- C3 (amended): after a first successful resolution of a category, a second
call for the same category returns an equal result but re-reads both backing
artifacts from storage: each call appends the same two `joblib.load` events
(kmeans then risk map) to the load log — there is no cache. -/
theorem repeated_resolution_rereads (env : Env) (s : RunState) (t c : String)
    (cm : String → Except String String) (tf : String → Except String FeatureVec)
    (rm : FeatureVec → Except String Int) (mp : Int → Option String)
    (hb : ¬(t = "" ∨ pyStrip t = ""))
    (hcm : env.category_model = some cm) (htf : env.tfidf = some tf)
    (hc : cm t = Except.ok c)
    (hpe : env.pathExists (kmeans_path (safe_cat c)) = true)
    (hlc : env.loadCluster (kmeans_path (safe_cat c)) = Except.ok rm)
    (hlm : env.loadRiskMap (map_path (safe_cat c)) = Except.ok mp) :
    ((get_ml_predictions env (some t) ((get_ml_predictions env (some t) s).2)).1 =
        (get_ml_predictions env (some t) s).1) ∧
    ((get_ml_predictions env (some t) s).2.loads =
        s.loads ++ [kmeans_path (safe_cat c), map_path (safe_cat c)]) ∧
    ((get_ml_predictions env (some t) ((get_ml_predictions env (some t) s).2)).2.loads =
        (get_ml_predictions env (some t) s).2.loads ++
          [kmeans_path (safe_cat c), map_path (safe_cat c)]) := by
  have hloads : ∀ s' : RunState, (get_ml_predictions env (some t) s').2.loads =
      s'.loads ++ [kmeans_path (safe_cat c), map_path (safe_cat c)] := by
    intro s'
    rcases env with ⟨cmo, tfo, pe, lc, lm⟩
    dsimp only at hcm htf hpe hlc hlm
    subst hcm; subst htf
    unfold get_ml_predictions predictionBody
    cases hv : tf t with
    | error e => simp [hb, hc, hpe, hlc, hlm, hv]
    | ok v =>
      cases hcid : rm v with
      | error e => simp [hb, hc, hpe, hlc, hlm, hv, hcid]
      | ok cid => simp [hb, hc, hpe, hlc, hlm, hv, hcid]
  refine ⟨?_, hloads s, hloads _⟩
  rw [get_ml_predictions_run env (some t) ((get_ml_predictions env (some t) s).2),
    get_ml_predictions_run env (some t) s]

/-- Witness for the amended C3, on the Scenario C environment. -/
theorem repeated_resolution_rereads_witness :
    (get_ml_predictions envHit (some "loud noise")
        ((get_ml_predictions envHit (some "loud noise") initState).2)).2.loads =
      (get_ml_predictions envHit (some "loud noise") initState).2.loads ++
        [kmeans_path (safe_cat "Noise Complaint"), map_path (safe_cat "Noise Complaint")] :=
  (repeated_resolution_rereads envHit initState "loud noise" "Noise Complaint"
    (fun _ => .ok "Noise Complaint") (fun _ => .ok [1]) (fun _ => .ok 2) riskMap3
    (by decide) rfl rfl rfl rfl rfl rfl).2.2

/-- C9: the result carries the extra `risk_level` key exactly on the full
clustering-success path (reaching app.py line 74), where its value equals the
`risk` value; on every other path (blank input, models not loaded, missing
artifact, caught failure) the result has only `category` and `risk`
(`risk_level` is absent). -/
theorem risk_level_iff_full_success (env : Env) (text : Option String) (s : RunState) :
    (get_ml_predictions env text s).1.risk_level =
      (if fullSuccessPath env text then some ((get_ml_predictions env text s).1.risk)
       else none) := by
  rcases env with ⟨cmo, tfo, pe, lc, lm⟩
  unfold get_ml_predictions predictionBody fullSuccessPath
  cases text with
  | none => rfl
  | some t =>
    dsimp only
    by_cases hb : t = "" ∨ pyStrip t = ""
    · simp [hb, unknownPred]
    · cases cmo with
      | none => cases tfo <;> simp [hb, modelNotLoadedPred]
      | some cm =>
        cases tfo with
        | none => simp [hb, modelNotLoadedPred]
        | some tf =>
          cases hc : cm t with
          | error e => simp [hb, hc, unknownPred]
          | ok c =>
            cases hpe : pe (kmeans_path (safe_cat c)) with
            | false => simp [hb, hc, hpe]
            | true =>
              cases hlc : lc (kmeans_path (safe_cat c)) with
              | error e => simp [hb, hc, hpe, hlc, unknownPred]
              | ok rm =>
                cases hlm : lm (map_path (safe_cat c)) with
                | error e => simp [hb, hc, hpe, hlc, hlm, unknownPred]
                | ok mp =>
                  cases hv : tf t with
                  | error e => simp [hb, hc, hpe, hlc, hlm, hv, unknownPred]
                  | ok v =>
                    cases hcid : rm v with
                    | error e => simp [hb, hc, hpe, hlc, hlm, hv, hcid, unknownPred]
                    | ok cid => simp [hb, hc, hpe, hlc, hlm, hv, hcid]

/-- C10: output-value invariant — the returned category is a label produced by
the category classifier, "Unknown", or "Model not loaded"; the returned risk is
a value of a loaded risk map, "Unknown", or "Model not loaded". -/
theorem result_values_range (env : Env) (text : Option String) (s : RunState) :
    ((get_ml_predictions env text s).1.category = "Unknown" ∨
      (get_ml_predictions env text s).1.category = "Model not loaded" ∨
      ∃ t cm, text = some t ∧ env.category_model = some cm ∧
        cm t = Except.ok (get_ml_predictions env text s).1.category) ∧
    ((get_ml_predictions env text s).1.risk = "Unknown" ∨
      (get_ml_predictions env text s).1.risk = "Model not loaded" ∨
      ∃ p mp cid, env.loadRiskMap p = Except.ok mp ∧
        mp cid = some (get_ml_predictions env text s).1.risk) := by
  rcases env with ⟨cmo, tfo, pe, lc, lm⟩
  unfold get_ml_predictions predictionBody
  cases text with
  | none => simp [unknownPred]
  | some t =>
    dsimp only
    by_cases hb : t = "" ∨ pyStrip t = ""
    · simp [hb, unknownPred]
    · cases cmo with
      | none => cases tfo <;> simp [hb, modelNotLoadedPred]
      | some cm =>
        cases tfo with
        | none => simp [hb, modelNotLoadedPred]
        | some tf =>
          cases hc : cm t with
          | error e => simp [hb, hc, unknownPred]
          | ok c =>
            cases hpe : pe (kmeans_path (safe_cat c)) with
            | false =>
              simp only [hb, hc, hpe]
              refine ⟨Or.inr (Or.inr ⟨t, cm, rfl, rfl, by simp [hb, hc, hpe]⟩), ?_⟩
              simp [hb, hc, hpe]
            | true =>
              cases hlc : lc (kmeans_path (safe_cat c)) with
              | error e => simp [hb, hc, hpe, hlc, unknownPred]
              | ok rm =>
                cases hlm : lm (map_path (safe_cat c)) with
                | error e => simp [hb, hc, hpe, hlc, hlm, unknownPred]
                | ok mp =>
                  cases hv : tf t with
                  | error e => simp [hb, hc, hpe, hlc, hlm, hv, unknownPred]
                  | ok v =>
                    cases hcid : rm v with
                    | error e => simp [hb, hc, hpe, hlc, hlm, hv, hcid, unknownPred]
                    | ok cid =>
                      refine ⟨Or.inr (Or.inr ⟨t, cm, rfl, rfl, ?_⟩), ?_⟩
                      · simp [hb, hc, hpe, hlc, hlm, hv, hcid]
                      · cases hmp : mp cid with
                        | none => simp [hb, hc, hpe, hlc, hlm, hv, hcid, hmp]
                        | some x =>
                          refine Or.inr (Or.inr
                            ⟨map_path (safe_cat c), mp, cid, hlm, ?_⟩)
                          simp [hb, hc, hpe, hlc, hlm, hv, hcid, hmp]
